import Mathlib

set_option maxRecDepth 100000

/-!
Verification of the `sd` SPI SD-card driver (files `sd/definitions.go`,
`sd/card.go`) against its natural-language specification.

The Go code is shallowly embedded: bytes are `Nat` values reduced `% 256`
at the points where Go's `uint8` arithmetic wraps, `uint16`/`uint32`
arithmetic carries explicit `% 2^16` / `% 2^32`, Go's `int64` is `Int`,
fallible operations return `Option`, and the stateful SPI session is a
state-passing machine over an explicit transport oracle.
-/

namespace SD

/-! ## Checksum engine (definitions.go) -/

/-- The 256-entry lookup table `crc7_table` from definitions.go, verbatim. -/
def crc7_table : List Nat := [
  0x00, 0x12, 0x24, 0x36, 0x48, 0x5a, 0x6c, 0x7e,
  0x90, 0x82, 0xb4, 0xa6, 0xd8, 0xca, 0xfc, 0xee,
  0x32, 0x20, 0x16, 0x04, 0x7a, 0x68, 0x5e, 0x4c,
  0xa2, 0xb0, 0x86, 0x94, 0xea, 0xf8, 0xce, 0xdc,
  0x64, 0x76, 0x40, 0x52, 0x2c, 0x3e, 0x08, 0x1a,
  0xf4, 0xe6, 0xd0, 0xc2, 0xbc, 0xae, 0x98, 0x8a,
  0x56, 0x44, 0x72, 0x60, 0x1e, 0x0c, 0x3a, 0x28,
  0xc6, 0xd4, 0xe2, 0xf0, 0x8e, 0x9c, 0xaa, 0xb8,
  0xc8, 0xda, 0xec, 0xfe, 0x80, 0x92, 0xa4, 0xb6,
  0x58, 0x4a, 0x7c, 0x6e, 0x10, 0x02, 0x34, 0x26,
  0xfa, 0xe8, 0xde, 0xcc, 0xb2, 0xa0, 0x96, 0x84,
  0x6a, 0x78, 0x4e, 0x5c, 0x22, 0x30, 0x06, 0x14,
  0xac, 0xbe, 0x88, 0x9a, 0xe4, 0xf6, 0xc0, 0xd2,
  0x3c, 0x2e, 0x18, 0x0a, 0x74, 0x66, 0x50, 0x42,
  0x9e, 0x8c, 0xba, 0xa8, 0xd6, 0xc4, 0xf2, 0xe0,
  0x0e, 0x1c, 0x2a, 0x38, 0x46, 0x54, 0x62, 0x70,
  0x82, 0x90, 0xa6, 0xb4, 0xca, 0xd8, 0xee, 0xfc,
  0x12, 0x00, 0x36, 0x24, 0x5a, 0x48, 0x7e, 0x6c,
  0xb0, 0xa2, 0x94, 0x86, 0xf8, 0xea, 0xdc, 0xce,
  0x20, 0x32, 0x04, 0x16, 0x68, 0x7a, 0x4c, 0x5e,
  0xe6, 0xf4, 0xc2, 0xd0, 0xae, 0xbc, 0x8a, 0x98,
  0x76, 0x64, 0x52, 0x40, 0x3e, 0x2c, 0x1a, 0x08,
  0xd4, 0xc6, 0xf0, 0xe2, 0x9c, 0x8e, 0xb8, 0xaa,
  0x44, 0x56, 0x60, 0x72, 0x0c, 0x1e, 0x28, 0x3a,
  0x4a, 0x58, 0x6e, 0x7c, 0x02, 0x10, 0x26, 0x34,
  0xda, 0xc8, 0xfe, 0xec, 0x92, 0x80, 0xb6, 0xa4,
  0x78, 0x6a, 0x5c, 0x4e, 0x30, 0x22, 0x14, 0x06,
  0xe8, 0xfa, 0xcc, 0xde, 0xa0, 0xb2, 0x84, 0x96,
  0x2e, 0x3c, 0x0a, 0x18, 0x66, 0x74, 0x42, 0x50,
  0xbe, 0xac, 0x9a, 0x88, 0xf6, 0xe4, 0xd2, 0xc0,
  0x1c, 0x0e, 0x38, 0x2a, 0x54, 0x46, 0x70, 0x62,
  0x8c, 0x9e, 0xa8, 0xba, 0xc4, 0xd6, 0xe0, 0xf2]

/-- Embedding of `CRC7` (definitions.go): `crc = crc7_table[crc^b]` folded
over the input bytes starting from zero. Inputs are bytes, so the index
reductions `% 256` mirror Go's `uint8` arithmetic and never change values. -/
def CRC7 (data : List Nat) : Nat :=
  data.foldl (fun crc b => crc7_table.getD ((crc ^^^ (b % 256)) % 256) 0) 0

/-- Modelled from the spec: the reference CRC7 — bit-serial polynomial
division by the generator x^7+x^3+1 (0x89), zero initial value, MSB-first,
message bits followed by seven augmentation zeros, yielding the 7-bit
remainder. Used only to compare the code's `CRC7` against the spec's words. -/
def crc7_spec (data : List Nat) : Nat :=
  let bits := data.foldr
    (fun b acc => ((List.range 8).reverse.map (fun i => (b >>> i) &&& 1)) ++ acc) []
  (bits ++ List.replicate 7 0).foldl
    (fun c bit =>
      let c1 := (c <<< 1) ||| bit
      if c1 &&& 0x80 ≠ 0 then c1 ^^^ 0x89 else c1) 0

/-- Embedding of `CRC16` (definitions.go): CRC-16-CCITT, polynomial 0x1021,
bit-serial over each byte shifted into the MSB, `uint16` arithmetic. -/
def CRC16 (buf : List Nat) : Nat :=
  buf.foldl
    (fun crc b =>
      (List.range 8).foldl
        (fun c _ =>
          if c &&& 0x8000 ≠ 0 then ((c <<< 1) ^^^ 0x1021) % 65536
          else (c <<< 1) % 65536)
        ((crc ^^^ ((b % 256) <<< 8)) % 65536))
    0

/-! ## Register decoder (definitions.go)

A CSD register image is its 16 raw bytes; we carry it as a `List Nat` and
read byte `i` with `byteAt`, which reduces `% 256` exactly as Go's `[16]byte`
storage guarantees byte-sized values. -/

/-- Byte `i` of a register image (Go `c.data[i]`, a `uint8`). -/
def byteAt (d : List Nat) (i : Nat) : Nat := d.getD i 0 % 256

/-- Bytes 0..14 of a CSD image (Go `c.data[:15]`). -/
def csdFirst15 (d : List Nat) : List Nat := (List.range 15).map (byteAt d)

/-- Embedding of `CSD.CSDStructure`: `c.data[0] >> 6`. -/
def CSDStructure (d : List Nat) : Nat := byteAt d 0 >>> 6

/-- Embedding of `CSD.ReadBlockLen`: `1 << (c.data[5] & 0x0F)` as `uint16`. -/
def ReadBlockLen (d : List Nat) : Nat := (1 <<< (byteAt d 5 &&& 0x0F)) % 65536

/-- Embedding of `CSD.IsValid`: `CRC7(c.data[:15]) | (1<<7) == c.data[15]`. -/
def IsValid (d : List Nat) : Bool :=
  (CRC7 (csdFirst15 d) ||| (1 <<< 7)) == byteAt d 15

/-- Embedding of `CSDv1.csize`:
`uint16(data[8]>>6) | uint16(data[7])<<2 | uint16(data[6]&0b11)<<10`. -/
def csizeV1 (d : List Nat) : Nat :=
  (byteAt d 8 >>> 6) ||| ((byteAt d 7) <<< 2) ||| ((byteAt d 6 &&& 0b11) <<< 10)

/-- Embedding of `CSDv1.csizemult`: `(data[9]&0b11)<<1 | (data[10]>>7)`. -/
def csizemultV1 (d : List Nat) : Nat :=
  ((byteAt d 9 &&& 0b11) <<< 1) ||| (byteAt d 10 >>> 7)

/-- Embedding of `CSDv1.mult`: `1 << (2 + csizemult)` as `uint16`. -/
def multV1 (d : List Nat) : Nat := (1 <<< (2 + csizemultV1 d)) % 65536

/-- Embedding of `CSDv1.DeviceCapacity`:
`blockNR := uint32(csize+1) * uint32(mult); return blockNR * uint32(blklen)`
with `uint32` wrap-around on both multiplications. -/
def DeviceCapacityV1 (d : List Nat) : Nat :=
  ((csizeV1 d + 1) * multV1 d % 4294967296) * ReadBlockLen d % 4294967296

/-- Embedding of `CSDv2.csize`:
`uint32(data[7]>>2)<<16 | uint32(data[8])<<8 | uint32(data[9])`. -/
def csizeV2 (d : List Nat) : Nat :=
  ((byteAt d 7 >>> 2) <<< 16) ||| ((byteAt d 8) <<< 8) ||| byteAt d 9

/-- Embedding of `CSDv2.DeviceCapacity`: `uint64(csize) * 512_000`. -/
def DeviceCapacityV2 (d : List Nat) : Nat :=
  csizeV2 d * 512000 % 18446744073709551616

/-- Embedding of `CSD.DeviceCapacity`: dispatch on the structure bits
(case 0 → v1, case 1 → v2, anything else leaves size = 0). -/
def DeviceCapacity (d : List Nat) : Nat :=
  if CSDStructure d = 0 then DeviceCapacityV1 d
  else if CSDStructure d = 1 then DeviceCapacityV2 d
  else 0

/-- Embedding of `CSD.NumberOfBlocks`: `DeviceCapacity / ReadBlockLen`,
with the code's guard returning 0 when `ReadBlockLen` is 0. -/
def NumberOfBlocks (d : List Nat) : Nat :=
  if ReadBlockLen d = 0 then 0 else DeviceCapacity d / ReadBlockLen d

/-! ## Log-scale lookups (definitions.go) -/

/-- The seven-entry `log10table` from definitions.go. -/
def log10table : List Int := [1, 10, 100, 1000, 10000, 100000, 1000000]

/-- Embedding of `TransferSpeed.RateKilobits`: `100 * log10table[t&0b111]`.
Indexing past the end of the Go array panics, modelled as `none`. -/
def RateKilobits (t : Nat) : Option Int :=
  (log10table.get? (t &&& 0b111)).map (fun x => 100 * x)

/-- Embedding of `TAAC.AccessTime`: `Duration(log10table[t&0b111]) * Nanosecond`,
i.e. the looked-up value in nanoseconds; an out-of-range index panics (`none`). -/
def AccessTime (t : Nat) : Option Int :=
  log10table.get? (t &&& 0b111)

/-! ## Command frame construction (card.go) -/

/-- Embedding of `putCmd`: `dst[0] = 0x40|cmd`, big-endian 32-bit argument,
`dst[5] = CRC7(dst[:5])<<1 | 1` with `uint8` wrap on the final byte. -/
def putCmdFrame (c : Nat) (arg : Nat) : List Nat :=
  let a := arg % 4294967296
  let body := [(0x40 ||| c) % 256,
               a / 16777216 % 256, a / 65536 % 256, a / 256 % 256, a % 256]
  body ++ [((CRC7 body <<< 1) ||| 1) % 256]

/-- The frame `cmd` actually transmits: `putCmd` fills the buffer, then
`buf[5] = crc` overwrites the computed trailing byte (card.go line 356). -/
def cmdFrame (c : Nat) (arg : Nat) (crc : Nat) : List Nat :=
  (putCmdFrame c arg).set 5 (crc % 256)

/-! ## Transport model

The driver talks to `drivers.SPI` through `Tx(w, r) error` and
`Transfer(b) (byte, error)` and to the chip-select pin through `cs(bool)`.
Each bus call is answered by a deterministic oracle indexed by the number of
bus calls made so far; the answer carries the received bytes and the call's
error value (`none` = Go `nil`). Chip-select toggles and transmitted bytes
are recorded in an event trace. -/

/-- The transport's answer to one bus call: received bytes and error. -/
structure BusResp where
  rx : List Nat
  err : Option Nat
deriving DecidableEq

/-- A deterministic transport: answers the n-th bus call of the session. -/
def Oracle : Type := Nat → BusResp

/-- Observable interaction events: chip-select changes and transmitted bytes. -/
inductive Ev where
  | cs (enable : Bool)
  | tx (w : List Nat)
deriving DecidableEq

/-- The driver's error values (card.go `var (...)` block), plus
`response` for `makeResponseError(status)` and `transport` for an error
value returned by the Transport collaborator and handed through. -/
inductive SDError where
  | noSDCard
  | cardNotSupported
  | need512
  | write
  | writeTimeout
  | oob
  | noblocks
  | waitStartBlock
  | shortBuffer
  | response (status : Nat)
  | transport (code : Nat)
deriving DecidableEq

/-- Embedding of the decoded `CID` struct (definitions.go). -/
structure CIDReg where
  manufacturerID : Nat
  oemApplicationID : Nat
  prodName : List Nat
  productRev : Nat
  productSerialNumber : Nat
  date : List Nat
deriving DecidableEq

/-- Embedding of `DecodeCID`: fixed-offset field extraction; fails
(`io.ErrShortBuffer`) when fewer than 16 bytes are supplied. -/
def DecodeCID (b : List Nat) : Option CIDReg :=
  if b.length < 16 then none
  else some
    { manufacturerID := byteAt b 0
      oemApplicationID := byteAt b 1 * 256 + byteAt b 2
      prodName := [byteAt b 3, byteAt b 4, byteAt b 5, byteAt b 6, byteAt b 7]
      productRev := byteAt b 8
      productSerialNumber :=
        ((byteAt b 9 * 256 + byteAt b 10) * 256 + byteAt b 11) * 256 + byteAt b 12
      date := [byteAt b 13, byteAt b 14] }

/-- Embedding of `DecodeCSD`: copies the first 16 bytes; fails when fewer
than 16 bytes are supplied. -/
def DecodeCSD (b : List Nat) : Option (List Nat) :=
  if b.length < 16 then none else some (b.take 16)

/-- The mutable `SPICard` session state (card.go), with two ghost counters
`kindWrites` / `nbWrites` counting assignments to `kind` / `numblocks`,
plus the bus-call cursor `idx` and the event trace. -/
structure S where
  kind : Nat
  numblocks : Int
  lastCRC : Nat
  cid : Option CIDReg
  csd : List Nat
  idx : Nat
  trace : List Ev
  kindWrites : Nat
  nbWrites : Nat
deriving DecidableEq

/-- A fresh session, as built by `NewSPICard`. -/
def initS : S :=
  { kind := 0, numblocks := 0, lastCRC := 0, cid := none, csd := []
    idx := 0, trace := [], kindWrites := 0, nbWrites := 0 }

/-- One SPI bus call (`Tx` or `Transfer`): consumes the next oracle answer
and records the transmitted bytes. -/
def busCall (o : Oracle) (w : List Nat) (s : S) : BusResp × S :=
  (o s.idx, { s with idx := s.idx + 1, trace := s.trace ++ [Ev.tx w] })

/-- Embedding of `d.bus.Transfer(b)`: one byte out, one byte (and error) in. -/
def transfer (o : Oracle) (b : Nat) (s : S) : (Nat × Option Nat) × S :=
  let (r, s1) := busCall o [b % 256] s
  ((r.rx.getD 0 0 % 256, r.err), s1)

/-- Embedding of `csEnable` (the logical argument is recorded; Go inverts it
for the electrical level, which is outside the model). -/
def csEnable (b : Bool) (s : S) : S := { s with trace := s.trace ++ [Ev.cs b] }

/-- Ghost-instrumented assignment `d.kind = k`. -/
def setKind (k : Nat) (s : S) : S :=
  { s with kind := k, kindWrites := s.kindWrites + 1 }

/-- Ghost-instrumented assignment `d.numblocks = n`. -/
def setNumblocks (n : Int) (s : S) : S :=
  { s with numblocks := n, nbWrites := s.nbWrites + 1 }

/-- Embedding of `waitNotBusy` (card.go 384–397): poll `Transfer(0xFF)` until
the deadline expires (`fuel` polls remain), a transport error occurs, or
0xFF is seen. NOTE (faithful to the source): deadline expiry falls out of
the loop and returns `nil`, not an error. -/
def waitNotBusy (o : Oracle) : Nat → S → Option SDError × S
  | 0, s => (none, s)
  | fuel + 1, s =>
    let ((r, e), s1) := transfer o 0xFF s
    match e with
    | some code => (some (.transport code), s1)
    | none => if r = 0xFF then (none, s1) else waitNotBusy o fuel s1

/-- The response-polling loop inside `cmd` (card.go 367–374): up to the given
number of 1-byte exchanges (`d.bus.Tx(buf[:1], d.bufTok[:])`, error ignored)
looking for a byte with a clear top bit. -/
def pollResponse (o : Oracle) : Nat → S → Option Nat × S
  | 0, s => (none, s)
  | fuel + 1, s =>
    let (resp, s1) := busCall o [0xFF] s
    let r := resp.rx.getD 0 0 % 256
    if r &&& 0x80 = 0 then (some r, s1) else pollResponse o fuel s1

/-- Embedding of `cmd` (card.go 346–382). `wf` is the number of polls the
300 ms pre-command busy-wait allows; the response poll bound is the
source's literal 0xFFFF. Returns the R1 status and an error. -/
def cmd (o : Oracle) (wf : Nat) (c arg crc : Nat) (s : S) :
    (Nat × Option SDError) × S :=
  let s1 := csEnable true s
  let s2 := if c ≠ 12 then (waitNotBusy o wf s1).2 else s1
  let (resp, s3) := busCall o (cmdFrame c arg crc) s2
  match resp.err with
  | some e => ((0, some (.transport e)), s3)
  | none =>
    let s4 := if c = 12 then (transfer o 0xFF s3).2 else s3
    match pollResponse o 0xFFFF s4 with
    | (some r, s5) => ((r, none), s5)
    | (none, s5) =>
      let s6 := csEnable false s5
      let s7 := (transfer o 0xFF s6).2
      ((0xFF, none), s7)

/-- Embedding of `cmdEnsure0Status`: non-zero status becomes
`makeResponseError(status)`. -/
def cmdEnsure0Status (o : Oracle) (wf : Nat) (c arg crc : Nat) (s : S) :
    Option SDError × S :=
  let ((st, e), s1) := cmd o wf c arg crc s
  match e with
  | some err => (some err, s1)
  | none => if st ≠ 0 then (some (.response st), s1) else (none, s1)

/-- Embedding of `appCmd`: CMD55 prefix, then the application command; the
prefix status is not checked, only its error. -/
def appCmd (o : Oracle) (wf : Nat) (c arg : Nat) (s : S) :
    (Nat × Option SDError) × S :=
  let ((st, e), s1) := cmd o wf 55 0 0xFF s
  match e with
  | some err => ((st, some err), s1)
  | none => cmd o wf c arg 0xFF s1

/-- Embedding of `waitStartBlock` (card.go 399–421): poll for a byte other
than 0xFF within the deadline; a transport error or a byte other than the
start token 254 deselects and fails. -/
def waitStartBlock (o : Oracle) : Nat → S → Option SDError × S
  | 0, s => (some .waitStartBlock, csEnable false s)
  | fuel + 1, s =>
    let ((r, e), s1) := transfer o 0xFF s
    match e with
    | some code => (some (.transport code), csEnable false s1)
    | none =>
      if r ≠ 0xFF then
        if r = 254 then (none, s1) else (some .waitStartBlock, csEnable false s1)
      else waitStartBlock o fuel s1

/-- A run of `n` checked `Transfer(0xFF)` calls collecting the received
bytes, aborting at the first transport error (card.go 303–309 and the
R7-echo loops in `Init`). -/
def transferN (o : Oracle) : Nat → S → (List Nat × Option Nat) × S
  | 0, s => (([], none), s)
  | n + 1, s =>
    let ((r, e), s1) := transfer o 0xFF s
    match e with
    | some code => (([], some code), s1)
    | none =>
      let ((rest, e2), s2) := transferN o n s1
      ((r :: rest, e2), s2)

/-- Embedding of `readRegister` (card.go 294–315): command, start-token
wait, 16 checked transfers, 2 discarded CRC bytes, deselect. -/
def readRegister (o : Oracle) (wf ws : Nat) (c : Nat) (s : S) :
    (List Nat × Option SDError) × S :=
  match cmdEnsure0Status o wf c 0 0xFF s with
  | (some e, s1) => (([], some e), s1)
  | (none, s1) =>
    match waitStartBlock o ws s1 with
    | (some e, s2) => (([], some e), s2)
    | (none, s2) =>
      match transferN o 16 s2 with
      | ((_, some code), s3) => (([], some (.transport code)), s3)
      | ((bytes, none), s3) =>
        let s4 := (transfer o 0xFF s3).2
        let s5 := (transfer o 0xFF s4).2
        ((bytes, none), csEnable false s5)

/-- The CMD0 retry loop in `Init` (card.go 69–84): up to `fuel` attempts
within the 2 s deadline; stops at status `_R1_IDLE_STATE` (1). Returns
whether the idle state was reached. -/
def initCmd0Loop (o : Oracle) (wf : Nat) : Nat → S → (Bool × Option SDError) × S
  | 0, s => ((false, none), s)
  | fuel + 1, s =>
    let ((r, e), s1) := cmd o wf 0 0 0x95 s
    match e with
    | some err => ((false, some err), s1)
    | none => if r = 1 then ((true, none), s1) else initCmd0Loop o wf fuel s1

/-- The ACMD41 retry loop in `Init` (card.go 128–138): keeps the last R1
value; stops when it reads 0 or the deadline (`fuel`) runs out. -/
def acmd41Loop (o : Oracle) (wf : Nat) (arg : Nat) :
    Nat → Nat → S → (Nat × Option SDError) × S
  | 0, r1, s => ((r1, none), s)
  | fuel + 1, _, s =>
    let ((r, e), s1) := appCmd o wf 41 arg s
    match e with
    | some err => ((r, some err), s1)
    | none => if r = 0 then ((r, none), s1) else acmd41Loop o wf arg fuel r s1

/-- Card.go 144–161: if the card is SD2, read the OCR to detect SDHC and
discard the remaining OCR bytes (errors of the discarded reads ignored). -/
def initOcrStep (o : Oracle) (wf : Nat) (s : S) : Option SDError × S :=
  if s.kind = 2 then
    match cmdEnsure0Status o wf 58 0 0xFF s with
    | (some e, s1) => (some e, s1)
    | (none, s1) =>
      match transfer o 0xFF s1 with
      | ((_, some code), s2) => (some (.transport code), s2)
      | ((statusb, none), s2) =>
        let s3 := if statusb &&& 0xC0 = 0xC0 then setKind 3 s2 else s2
        let s4 := (transfer o 0xFF s3).2
        let s5 := (transfer o 0xFF s4).2
        let s6 := (transfer o 0xFF s5).2
        (none, s6)
  else (none, s)

/-- Card.go 167–183: read and decode the CID and CSD registers and derive
the block count; overflow of the accepted range and a zero block count are
initialization failures. -/
def initRegisterStep (o : Oracle) (wf ws : Nat) (s : S) : Option SDError × S :=
  match readRegister o wf ws 10 s with
  | ((_, some e), s1) => (some e, s1)
  | ((cidBytes, none), s1) =>
    match DecodeCID cidBytes with
    | none => (some .shortBuffer, s1)
    | some cid =>
      let s2 := { s1 with cid := some cid }
      match readRegister o wf ws 9 s2 with
      | ((_, some e), s3) => (some e, s3)
      | ((csdBytes, none), s3) =>
        match DecodeCSD csdBytes with
        | none => (some .shortBuffer, s3)
        | some csd =>
          let s4 := { s3 with csd := csd }
          let nb := NumberOfBlocks csd
          if nb > 4294967295 then (some .cardNotSupported, s4)
          else if nb = 0 then (some .noblocks, s4)
          else (none, setNumblocks (Int.ofNat nb) s4)

/-- The body of `Init` (card.go 54–183) before the deferred
`csEnable(false)`. `wf` bounds each command's pre-busy-wait, `ws` the
start-token wait, `f0` the CMD0 loop, `f1` the ACMD41 loop. -/
def initBody (o : Oracle) (wf ws f0 f1 : Nat) (s : S) : Option SDError × S :=
  let s1 := csEnable true s
  let s2 := (busCall o (List.replicate 10 0xFF) s1).2
  let s3 := csEnable false s2
  let s4 := (busCall o (List.replicate 512 0xFF) s3).2
  match initCmd0Loop o wf f0 s4 with
  | ((_, some e), s5) => (some e, s5)
  | ((ok, none), s5) =>
    if !ok then (some .noSDCard, s5)
    else
      match cmd o wf 8 0x1AA 0x87 s5 with
      | ((_, some e), s6) => (some e, s6)
      | ((r1, none), s6) =>
        if r1 &&& 0x04 ≠ 0 then (some .cardNotSupported, setKind 1 s6)
        else
          match transferN o 3 s6 with
          | ((_, some code), s7) => (some (.transport code), s7)
          | ((sts, none), s7) =>
            let status := sts.getLastD 0
            if status &&& 0x0F ≠ 0x01 then (some (.response status), s7)
            else
              match transfer o 0xFF s7 with
              | ((_, some code), s8) => (some (.transport code), s8)
              | ((st4, none), s8) =>
                if st4 ≠ 0xAA then (some (.response st4), s8)
                else
                  let s9 := setKind 2 s8
                  let arg := if s9.kind = 2 then 0x40000000 else 0
                  match acmd41Loop o wf arg f1 r1 s9 with
                  | ((_, some e), s10) => (some e, s10)
                  | ((r1f, none), s10) =>
                    if r1f ≠ 0 then (some (.response r1f), s10)
                    else
                      match initOcrStep o wf s10 with
                      | (some e, s11) => (some e, s11)
                      | (none, s11) =>
                        match cmdEnsure0Status o wf 16 0x200 0xFF s11 with
                        | (some e, s12) => (some e, s12)
                        | (none, s12) => initRegisterStep o wf ws s12

/-- Embedding of `Init` (card.go 54): the body with the deferred
`d.csEnable(false)` appended on every exit path. -/
def Init (o : Oracle) (wf ws f0 f1 : Nat) (s : S) : Option SDError × S :=
  let (r, s1) := initBody o wf ws f0 f1 s
  (r, csEnable false s1)

/-- Embedding of `ReadBlock` (card.go 191–222). `dstLen` is the caller's
buffer length; on success the data received from the bus is returned. -/
def ReadBlock (o : Oracle) (wf ws : Nat) (block : Int) (dstLen : Nat) (s : S) :
    (Option SDError × List Nat) × S :=
  if dstLen ≠ 512 then ((some .need512, []), s)
  else if block ≥ s.numblocks then ((some .oob, []), s)
  else
    let baddr : Int := if s.kind ≠ 3 then block * 512 else block
    let addr : Nat := (baddr % 4294967296).toNat
    match cmdEnsure0Status o wf 17 addr 0xFF s with
    | (some e, s1) => ((some e, []), s1)
    | (none, s1) =>
      match waitStartBlock o ws s1 with
      | (some e, s2) => ((some e, []), csEnable false s2)
      | (none, s2) =>
        let (resp, s3) := busCall o (List.replicate 512 0xFF) s2
        match resp.err with
        | some code => ((some (.transport code), []), csEnable false s3)
        | none =>
          let ((hi, _), s4) := transfer o 0xFF s3
          let ((lo, _), s5) := transfer o 0xFF s4
          ((none, resp.rx.map (fun b => b % 256)),
            csEnable false { s5 with lastCRC := ((hi <<< 8) ||| lo) % 65536 })

/-- Embedding of `WriteBlock` (card.go 225–270). -/
def WriteBlock (o : Oracle) (wf bf : Nat) (block : Int) (src : List Nat) (s : S) :
    Option SDError × S :=
  if src.length ≠ 512 then (some .need512, s)
  else if block ≥ s.numblocks then (some .oob, s)
  else
    let baddr : Int := if s.kind ≠ 3 then block * 512 else block
    let addr : Nat := (baddr % 4294967296).toNat
    match cmdEnsure0Status o wf 24 addr 0xFF s with
    | (some e, s1) => (some e, s1)
    | (none, s1) =>
      let s2 := (transfer o 0xFE s1).2
      let (resp, s3) := busCall o (src.take 512) s2
      match resp.err with
      | some code => (some (.transport code), csEnable false s3)
      | none =>
        let s4 := (transfer o 0xFF s3).2
        let s5 := (transfer o 0xFF s4).2
        match transfer o 0xFF s5 with
        | ((_, some code), s6) => (some (.transport code), csEnable false s6)
        | ((r, none), s6) =>
          if r &&& 0x1F ≠ 0x05 then (some .write, csEnable false s6)
          else
            match waitNotBusy o bf s6 with
            | (some _, s7) => (some .writeTimeout, csEnable false s7)
            | (none, s7) => (none, csEnable false s7)

/-! ## Concrete transports and session states used in the theorems -/

/-- A transport that always answers 0xFF with no error (idle bus). -/
def oAllFF : Oracle := fun _ => ⟨[0xFF], none⟩

/-- A transport that always answers 0x00 with no error. -/
def oAllZero : Oracle := fun _ => ⟨[0x00], none⟩

/-- A successfully initialized session with one readable block (SD2 card). -/
def sOneBlock : S := { initS with numblocks := 1, kind := 2 }

/-- A transport whose CMD0 response is idle (0x01) and whose CMD8 response
carries the illegal-command flag (0x05). -/
def oCmd8Illegal : Oracle := fun i =>
  if i = 4 then ⟨[0x01], none⟩ else if i = 7 then ⟨[0x05], none⟩ else ⟨[0xFF], none⟩

/-- A transport that accepts a block write (command status 0, data response
0xE5 = accepted) and then reports busy (0x00) forever, without errors. -/
def oWriteBusy : Oracle := fun i =>
  if i = 0 then ⟨[0xFF], none⟩ else if i = 7 then ⟨[0xE5], none⟩ else ⟨[0x00], none⟩

/-- Like `oWriteBusy`, but the first busy-wait poll (bus call 8) fails with
transport error code `e`. -/
def oWriteBusyErr (e : Nat) : Oracle := fun i =>
  if i = 0 then ⟨[0xFF], none⟩ else if i = 7 then ⟨[0xE5], none⟩
  else if i = 8 then ⟨[0x00], some e⟩ else ⟨[0x00], none⟩

/-- A transport whose first response poll (bus call 2) returns a transport
error together with a still-busy byte, then answers with status 0. -/
def oPollErr : Oracle := fun i =>
  if i = 2 then ⟨[0xFF], some 9⟩ else if i = 3 then ⟨[0x00], none⟩ else ⟨[0xFF], none⟩

/-- A transport that fails the 6-byte command frame transmission (bus call 1)
with transport error code 5. -/
def oFrameErr : Oracle := fun i => if i = 1 then ⟨[], some 5⟩ else ⟨[0xFF], none⟩

/-! ## Helper lemmas -/

/-- The busy-wait loop returns `nil` when the deadline expires: if the
transport keeps answering busy bytes without error, `waitNotBusy` falls out
of its loop and reports no error, for every deadline. -/
theorem waitNotBusy_expired_nil : ∀ (o : Oracle) (f : Nat) (s : S),
    (∀ i, s.idx ≤ i → (o i).err = none ∧ ((o i).rx.getD 0 0 % 256) ≠ 0xFF) →
    (waitNotBusy o f s).1 = none := by
  intro o f
  induction f with
  | zero => intro s _; rfl
  | succ n ih =>
    intro s h
    have he := (h s.idx (Nat.le_refl _)).1
    have hr := (h s.idx (Nat.le_refl _)).2
    simp only [waitNotBusy, transfer, busCall, he, if_neg hr]
    exact ih _ (fun i hi => h i (Nat.le_of_succ_le hi))

/-- The four session fields whose assignment discipline the spec fixes:
`s'` agrees with `s` on `kind`, `numblocks` and both ghost counters. -/
def Pres (s s' : S) : Prop :=
  s'.kind = s.kind ∧ s'.numblocks = s.numblocks ∧
  s'.kindWrites = s.kindWrites ∧ s'.nbWrites = s.nbWrites

theorem pres_refl (s : S) : Pres s s := ⟨rfl, rfl, rfl, rfl⟩

theorem pres_trans {a b c : S} (h1 : Pres a b) (h2 : Pres b c) : Pres a c :=
  ⟨h2.1.trans h1.1, h2.2.1.trans h1.2.1,
   h2.2.2.1.trans h1.2.2.1, h2.2.2.2.trans h1.2.2.2⟩

theorem pres_busCall (o : Oracle) (w : List Nat) (s : S) :
    Pres s (busCall o w s).2 := ⟨rfl, rfl, rfl, rfl⟩

theorem pres_transfer (o : Oracle) (b : Nat) (s : S) :
    Pres s (transfer o b s).2 := ⟨rfl, rfl, rfl, rfl⟩

theorem pres_csEnable (b : Bool) (s : S) : Pres s (csEnable b s) :=
  ⟨rfl, rfl, rfl, rfl⟩

theorem pres_upd (s : S) (i : Nat) (t : List Ev) :
    Pres s { s with idx := i, trace := t } := ⟨rfl, rfl, rfl, rfl⟩

theorem pres_setCRC (s : S) (x : Nat) : Pres s { s with lastCRC := x } :=
  ⟨rfl, rfl, rfl, rfl⟩

theorem pres_setCID (s : S) (c : Option CIDReg) : Pres s { s with cid := c } :=
  ⟨rfl, rfl, rfl, rfl⟩

theorem pres_setCSD (s : S) (c : List Nat) : Pres s { s with csd := c } :=
  ⟨rfl, rfl, rfl, rfl⟩

theorem pres_waitNotBusy (o : Oracle) : ∀ (f : Nat) (s : S),
    Pres s (waitNotBusy o f s).2 := by
  intro f
  induction f with
  | zero => intro s; exact pres_refl s
  | succ n ih =>
    intro s
    simp only [waitNotBusy, transfer, busCall]
    split
    · exact pres_upd s _ _
    · split
      · exact pres_upd s _ _
      · exact pres_trans (pres_upd s _ _) (ih _)

theorem pres_pollResponse (o : Oracle) : ∀ (f : Nat) (s : S),
    Pres s (pollResponse o f s).2 := by
  intro f
  induction f with
  | zero => intro s; exact pres_refl s
  | succ n ih =>
    intro s
    simp only [pollResponse, busCall]
    split
    · exact pres_upd s _ _
    · exact pres_trans (pres_upd s _ _) (ih _)

/-- Turning the equation form of a `pollResponse` run into preservation. -/
theorem pres_pollResponse_eq (o : Oracle) (f : Nat) {s s5 : S} {ro : Option Nat}
    (h : pollResponse o f s = (ro, s5)) : Pres s s5 := by
  have hp := pres_pollResponse o f s
  rw [h] at hp
  exact hp

theorem pres_cmd (o : Oracle) (wf c arg crc : Nat) (s : S) :
    Pres s (cmd o wf c arg crc s).2 := by
  unfold cmd
  simp only [busCall]
  have h2 : Pres s (if c ≠ 12 then (waitNotBusy o wf (csEnable true s)).2
      else csEnable true s) := by
    split
    · exact pres_trans (pres_csEnable true s) (pres_waitNotBusy o wf _)
    · exact pres_csEnable true s
  generalize hs2 : (if c ≠ 12 then (waitNotBusy o wf (csEnable true s)).2
      else csEnable true s) = s2 at h2 ⊢
  split
  · exact pres_trans h2 (pres_upd s2 _ _)
  · split
    · rename_i r s5 h
      refine pres_trans ?_ (pres_pollResponse_eq o 0xFFFF h)
      split
      · exact pres_trans h2 (pres_trans (pres_upd s2 _ _) (pres_transfer o 0xFF _))
      · exact pres_trans h2 (pres_upd s2 _ _)
    · rename_i s5 h
      refine pres_trans ?_ (pres_trans (pres_pollResponse_eq o 0xFFFF h)
        (pres_trans (pres_csEnable false s5) (pres_transfer o 0xFF _)))
      split
      · exact pres_trans h2 (pres_trans (pres_upd s2 _ _) (pres_transfer o 0xFF _))
      · exact pres_trans h2 (pres_upd s2 _ _)

theorem pres_cmdEnsure0Status (o : Oracle) (wf c arg crc : Nat) (s : S) :
    Pres s (cmdEnsure0Status o wf c arg crc s).2 := by
  unfold cmdEnsure0Status
  have hp := pres_cmd o wf c arg crc s
  rcases hcmd : cmd o wf c arg crc s with ⟨⟨st, e⟩, s1⟩
  rw [hcmd] at hp
  dsimp only
  rcases e with _ | err
  · dsimp only
    split <;> exact hp
  · exact hp

theorem pres_appCmd (o : Oracle) (wf c arg : Nat) (s : S) :
    Pres s (appCmd o wf c arg s).2 := by
  unfold appCmd
  have hp := pres_cmd o wf 55 0 0xFF s
  rcases hcmd : cmd o wf 55 0 0xFF s with ⟨⟨st, e⟩, s1⟩
  rw [hcmd] at hp
  dsimp only
  rcases e with _ | err
  · exact pres_trans hp (pres_cmd o wf c arg 0xFF s1)
  · exact hp

theorem pres_waitStartBlock (o : Oracle) : ∀ (f : Nat) (s : S),
    Pres s (waitStartBlock o f s).2 := by
  intro f
  induction f with
  | zero => intro s; exact pres_csEnable false s
  | succ n ih =>
    intro s
    simp only [waitStartBlock, transfer, busCall]
    split
    · exact pres_trans (pres_upd s _ _) (pres_csEnable false _)
    · split
      · split
        · exact pres_upd s _ _
        · exact pres_trans (pres_upd s _ _) (pres_csEnable false _)
      · exact pres_trans (pres_upd s _ _) (ih _)

/-- The collecting transfer loop returns its recursive state unchanged. -/
theorem transferN_cons_snd (p : (List Nat × Option Nat) × S) (r : Nat) :
    (match p with
      | ((rest, e2), s2) => (((r :: rest : List Nat), e2), s2)).2 = p.2 := by
  rcases p with ⟨⟨rest, e2⟩, s2⟩
  rfl

theorem pres_transferN (o : Oracle) : ∀ (n : Nat) (s : S),
    Pres s (transferN o n s).2 := by
  intro n
  induction n with
  | zero => intro s; exact pres_refl s
  | succ m ih =>
    intro s
    simp only [transferN, transfer, busCall]
    split
    · exact pres_upd s _ _
    · rw [transferN_cons_snd]
      exact pres_trans (pres_upd s _ _) (ih _)

theorem pres_cmd_eq (o : Oracle) (wf c arg crc : Nat) {s s1 : S} {p : Nat × Option SDError}
    (h : cmd o wf c arg crc s = (p, s1)) : Pres s s1 := by
  have hp := pres_cmd o wf c arg crc s
  rw [h] at hp
  exact hp

theorem pres_cmdE0_eq (o : Oracle) (wf c arg crc : Nat) {s s1 : S} {e : Option SDError}
    (h : cmdEnsure0Status o wf c arg crc s = (e, s1)) : Pres s s1 := by
  have hp := pres_cmdEnsure0Status o wf c arg crc s
  rw [h] at hp
  exact hp

theorem pres_appCmd_eq (o : Oracle) (wf c arg : Nat) {s s1 : S} {p : Nat × Option SDError}
    (h : appCmd o wf c arg s = (p, s1)) : Pres s s1 := by
  have hp := pres_appCmd o wf c arg s
  rw [h] at hp
  exact hp

theorem pres_waitNotBusy_eq (o : Oracle) (f : Nat) {s s1 : S} {e : Option SDError}
    (h : waitNotBusy o f s = (e, s1)) : Pres s s1 := by
  have hp := pres_waitNotBusy o f s
  rw [h] at hp
  exact hp

theorem pres_waitStartBlock_eq (o : Oracle) (f : Nat) {s s1 : S} {e : Option SDError}
    (h : waitStartBlock o f s = (e, s1)) : Pres s s1 := by
  have hp := pres_waitStartBlock o f s
  rw [h] at hp
  exact hp

theorem pres_transferN_eq (o : Oracle) (n : Nat) {s s1 : S} {p : List Nat × Option Nat}
    (h : transferN o n s = (p, s1)) : Pres s s1 := by
  have hp := pres_transferN o n s
  rw [h] at hp
  exact hp

theorem pres_readRegister (o : Oracle) (wf ws c : Nat) (s : S) :
    Pres s (readRegister o wf ws c s).2 := by
  unfold readRegister
  split
  · rename_i e s1 h
    exact pres_cmdE0_eq o wf c 0 0xFF h
  · rename_i s1 h
    have h1 := pres_cmdE0_eq o wf c 0 0xFF h
    split
    · rename_i e s2 h2
      exact pres_trans h1 (pres_waitStartBlock_eq o ws h2)
    · rename_i s2 h2
      have hp2 := pres_trans h1 (pres_waitStartBlock_eq o ws h2)
      split
      · rename_i code s3 h3
        exact pres_trans hp2 (pres_transferN_eq o 16 h3)
      · rename_i bytes s3 h3
        have hp3 := pres_trans hp2 (pres_transferN_eq o 16 h3)
        exact pres_trans hp3 (pres_trans
          (pres_trans (pres_transfer o 0xFF _) (pres_transfer o 0xFF _))
          (pres_csEnable false _))

theorem pres_ReadBlock (o : Oracle) (wf ws : Nat) (block : Int) (dstLen : Nat)
    (s : S) : Pres s (ReadBlock o wf ws block dstLen s).2 := by
  unfold ReadBlock
  split
  · exact pres_refl s
  · split
    · exact pres_refl s
    · dsimp only
      generalize ((if s.kind ≠ 3 then block * 512 else block) % 4294967296).toNat = addr
      split
      · rename_i e s1 h
        exact pres_cmdE0_eq o wf 17 _ 0xFF h
      · rename_i s1 h
        have h1 := pres_cmdE0_eq o wf 17 _ 0xFF h
        split
        · rename_i e s2 h2
          exact pres_trans h1 (pres_trans (pres_waitStartBlock_eq o ws h2)
            (pres_csEnable false _))
        · rename_i s2 h2
          have hp2 := pres_trans h1 (pres_waitStartBlock_eq o ws h2)
          simp only [transfer, busCall]
          split
          · dsimp only
            refine pres_trans hp2 (pres_trans ?_ (pres_csEnable false _))
            exact ⟨rfl, rfl, rfl, rfl⟩
          · dsimp only
            refine pres_trans hp2 (pres_trans ?_ (pres_csEnable false _))
            exact ⟨rfl, rfl, rfl, rfl⟩

theorem pres_WriteBlock (o : Oracle) (wf bf : Nat) (block : Int) (src : List Nat)
    (s : S) : Pres s (WriteBlock o wf bf block src s).2 := by
  unfold WriteBlock
  split
  · exact pres_refl s
  · split
    · exact pres_refl s
    · dsimp only
      generalize ((if s.kind ≠ 3 then block * 512 else block) % 4294967296).toNat = addr
      split
      · rename_i e s1 h
        exact pres_cmdE0_eq o wf 24 _ 0xFF h
      · rename_i s1 h
        have h1 := pres_cmdE0_eq o wf 24 _ 0xFF h
        simp only [transfer, busCall]
        split
        · dsimp only
          refine pres_trans h1 (pres_trans ?_ (pres_csEnable false _))
          exact ⟨rfl, rfl, rfl, rfl⟩
        · split
          · rename_i fst code s6 heq
            injection heq with hx hs6
            subst hs6
            dsimp only
            refine pres_trans h1 (pres_trans ?_ (pres_csEnable false _))
            exact ⟨rfl, rfl, rfl, rfl⟩
          · rename_i r s6 heq
            injection heq with hx hs6
            subst hs6
            split
            · dsimp only
              refine pres_trans h1 (pres_trans ?_ (pres_csEnable false _))
              exact ⟨rfl, rfl, rfl, rfl⟩
            · split
              · rename_i e s7 h7
                dsimp only
                refine pres_trans (pres_trans h1 ?_)
                  (pres_trans (pres_waitNotBusy_eq o bf h7) (pres_csEnable false _))
                exact ⟨rfl, rfl, rfl, rfl⟩
              · rename_i s7 h7
                dsimp only
                refine pres_trans (pres_trans h1 ?_)
                  (pres_trans (pres_waitNotBusy_eq o bf h7) (pres_csEnable false _))
                exact ⟨rfl, rfl, rfl, rfl⟩

theorem pres_transfer_eq (o : Oracle) (b : Nat) {s s1 : S} {p : Nat × Option Nat}
    (h : transfer o b s = (p, s1)) : Pres s s1 := by
  have hp := pres_transfer o b s
  rw [h] at hp
  exact hp

theorem pres_readRegister_eq (o : Oracle) (wf ws c : Nat) {s s1 : S}
    {p : List Nat × Option SDError}
    (h : readRegister o wf ws c s = (p, s1)) : Pres s s1 := by
  have hp := pres_readRegister o wf ws c s
  rw [h] at hp
  exact hp

theorem pres_initCmd0Loop (o : Oracle) (wf : Nat) : ∀ (f : Nat) (s : S),
    Pres s (initCmd0Loop o wf f s).2 := by
  intro f
  induction f with
  | zero => intro s; exact pres_refl s
  | succ n ih =>
    intro s
    simp only [initCmd0Loop]
    rcases hcmd : cmd o wf 0 0 0x95 s with ⟨⟨r, e⟩, s1⟩
    have hp := pres_cmd_eq o wf 0 0 0x95 hcmd
    dsimp only
    rcases e with _ | err
    · dsimp only
      split
      · exact hp
      · exact pres_trans hp (ih s1)
    · exact hp

theorem pres_initCmd0Loop_eq (o : Oracle) (wf f : Nat) {s s1 : S}
    {p : Bool × Option SDError}
    (h : initCmd0Loop o wf f s = (p, s1)) : Pres s s1 := by
  have hp := pres_initCmd0Loop o wf f s
  rw [h] at hp
  exact hp

theorem pres_acmd41Loop (o : Oracle) (wf arg : Nat) : ∀ (f r1 : Nat) (s : S),
    Pres s (acmd41Loop o wf arg f r1 s).2 := by
  intro f
  induction f with
  | zero => intro r1 s; exact pres_refl s
  | succ n ih =>
    intro r1 s
    simp only [acmd41Loop]
    rcases hcmd : appCmd o wf 41 arg s with ⟨⟨r, e⟩, s1⟩
    have hp := pres_appCmd_eq o wf 41 arg hcmd
    dsimp only
    rcases e with _ | err
    · dsimp only
      split
      · exact hp
      · exact pres_trans hp (ih r s1)
    · exact hp

theorem pres_acmd41Loop_eq (o : Oracle) (wf arg f r1 : Nat) {s s1 : S}
    {p : Nat × Option SDError}
    (h : acmd41Loop o wf arg f r1 s = (p, s1)) : Pres s s1 := by
  have hp := pres_acmd41Loop o wf arg f r1 s
  rw [h] at hp
  exact hp

/-- Accounting for the OCR step: the block-count fields are untouched and
at most one `kind` assignment (the SDHC reclassification) happens. -/
theorem initOcrStep_accounting (o : Oracle) (wf : Nat) (s : S) :
    (initOcrStep o wf s).2.numblocks = s.numblocks ∧
    (initOcrStep o wf s).2.nbWrites = s.nbWrites ∧
    (initOcrStep o wf s).2.kindWrites ≤ s.kindWrites + 1 := by
  unfold initOcrStep
  split
  · split
    · rename_i e s1 h
      obtain ⟨hk, hn, hkw, hnw⟩ := pres_cmdE0_eq o wf 58 0 0xFF h
      dsimp only
      exact ⟨hn, hnw, by omega⟩
    · rename_i s1 h
      obtain ⟨hk, hn, hkw, hnw⟩ := pres_cmdE0_eq o wf 58 0 0xFF h
      simp only [transfer, busCall]
      split
      · rename_i statusb code s2 heq
        injection heq with h1' h2'
        subst h2'
        dsimp only
        exact ⟨hn, hnw, by omega⟩
      · rename_i statusb s2 heq
        injection heq with h1' h2'
        subst h2'
        split
        · dsimp only [setKind]
          exact ⟨hn, hnw, by omega⟩
        · dsimp only
          exact ⟨hn, hnw, by omega⟩
  · dsimp only
    exact ⟨rfl, rfl, by omega⟩

/-- Accounting for the register step: `numblocks` is assigned exactly when
the step succeeds, and `kind` is never assigned. -/
theorem initRegisterStep_accounting (o : Oracle) (wf ws : Nat) (s : S) :
    (initRegisterStep o wf ws s).2.nbWrites
      = s.nbWrites + (if (initRegisterStep o wf ws s).1 = none then 1 else 0) ∧
    ((initRegisterStep o wf ws s).1 = none ∨
      (initRegisterStep o wf ws s).2.numblocks = s.numblocks) ∧
    (initRegisterStep o wf ws s).2.kindWrites = s.kindWrites := by
  unfold initRegisterStep
  rcases h : readRegister o wf ws 10 s with ⟨⟨cidBytes, e1⟩, s1⟩
  obtain ⟨hk, hn, hkw, hnw⟩ := pres_readRegister_eq o wf ws 10 h
  rcases e1 with _ | e
  · dsimp only
    rcases hcid : DecodeCID cidBytes with _ | cid
    · dsimp only
      exact ⟨by simp [hnw], Or.inr hn, hkw⟩
    · dsimp only
      rcases h3 : readRegister o wf ws 9 { s1 with cid := some cid }
        with ⟨⟨csdBytes, e3⟩, s3⟩
      obtain ⟨hk3, hn3, hkw3, hnw3⟩ := pres_readRegister_eq o wf ws 9 h3
      have hnn : s3.numblocks = s.numblocks := hn3.trans hn
      have hww : s3.nbWrites = s.nbWrites := hnw3.trans hnw
      have hkk : s3.kindWrites = s.kindWrites := hkw3.trans hkw
      rcases e3 with _ | e
      · dsimp only
        rcases hcsd : DecodeCSD csdBytes with _ | csd
        · dsimp only
          exact ⟨by simp [hww], Or.inr hnn, hkk⟩
        · dsimp only
          by_cases hnb : NumberOfBlocks csd > 4294967295
          · simp only [if_pos hnb]
            exact ⟨by simp [hww], Or.inr hnn, hkk⟩
          · simp only [if_neg hnb]
            by_cases hz : NumberOfBlocks csd = 0
            · simp only [if_pos hz]
              exact ⟨by simp [hww], Or.inr hnn, hkk⟩
            · simp only [if_neg hz]
              exact ⟨by simp [setNumblocks, hww], Or.inl (by trivial), hkk⟩
      · dsimp only
        exact ⟨by simp [hww], Or.inr hnn, hkk⟩
  · dsimp only
    exact ⟨by simp [hnw], Or.inr hn, hkw⟩

/-- Shape of the accounting facts at an initialization failure exit. -/
theorem initBody_fail_leaf {s sK : S} {e : SDError}
    (hn : sK.numblocks = s.numblocks) (hw : sK.nbWrites = s.nbWrites)
    (hkb : sK.kindWrites ≤ s.kindWrites + 2) :
    sK.nbWrites = s.nbWrites + (if (some e : Option SDError) = none then 1 else 0) ∧
    ((some e : Option SDError) = none ∨ sK.numblocks = s.numblocks) ∧
    sK.kindWrites ≤ s.kindWrites + 2 := by
  refine ⟨by simp [hw], Or.inr hn, hkb⟩

/-- Accounting for the whole `Init` body: `numblocks` is written exactly on
success, never on failure, and `kind` is written at most twice. -/
theorem initBody_accounting (o : Oracle) (wf ws f0 f1 : Nat) (s : S) :
    ∀ r s', initBody o wf ws f0 f1 s = (r, s') →
      s'.nbWrites = s.nbWrites + (if r = none then 1 else 0) ∧
      (r = none ∨ s'.numblocks = s.numblocks) ∧
      s'.kindWrites ≤ s.kindWrites + 2 := by
  intro r s' hres
  unfold initBody at hres
  simp only [busCall, csEnable] at hres
  split at hres
  · rename_i fst e s5 h0
    injection hres with hr hs
    subst hr; subst hs
    have hP : Pres s s5 := by
      refine pres_trans ?_ (pres_initCmd0Loop_eq o wf f0 h0)
      exact ⟨rfl, rfl, rfl, rfl⟩
    obtain ⟨hk5, hn5, hkw5, hnw5⟩ := hP
    exact initBody_fail_leaf hn5 hnw5 (by omega)
  · rename_i ok s5 h0
    have hP : Pres s s5 := by
      refine pres_trans ?_ (pres_initCmd0Loop_eq o wf f0 h0)
      exact ⟨rfl, rfl, rfl, rfl⟩
    obtain ⟨hk5, hn5, hkw5, hnw5⟩ := hP
    split at hres
    · injection hres with hr hs
      subst hr; subst hs
      exact initBody_fail_leaf hn5 hnw5 (by omega)
    · split at hres
      · rename_i fst e s6 h8
        injection hres with hr hs
        subst hr; subst hs
        obtain ⟨hk6, hn6, hkw6, hnw6⟩ := pres_cmd_eq o wf 8 0x1AA 0x87 h8
        exact initBody_fail_leaf (hn6.trans hn5) (hnw6.trans hnw5) (by omega)
      · rename_i r1 s6 h8
        obtain ⟨hk6, hn6, hkw6, hnw6⟩ := pres_cmd_eq o wf 8 0x1AA 0x87 h8
        have hn6' : s6.numblocks = s.numblocks := hn6.trans hn5
        have hnw6' : s6.nbWrites = s.nbWrites := hnw6.trans hnw5
        have hkw6' : s6.kindWrites = s.kindWrites := hkw6.trans hkw5
        split at hres
        · injection hres with hr hs
          subst hr; subst hs
          refine initBody_fail_leaf hn6' hnw6' ?_
          show s6.kindWrites + 1 ≤ s.kindWrites + 2
          omega
        · split at hres
          · rename_i fst code s7 h7
            injection hres with hr hs
            subst hr; subst hs
            obtain ⟨hk7, hn7, hkw7, hnw7⟩ := pres_transferN_eq o 3 h7
            exact initBody_fail_leaf (hn7.trans hn6') (hnw7.trans hnw6') (by omega)
          · rename_i sts s7 h7
            obtain ⟨hk7, hn7, hkw7, hnw7⟩ := pres_transferN_eq o 3 h7
            have hn7' : s7.numblocks = s.numblocks := hn7.trans hn6'
            have hnw7' : s7.nbWrites = s.nbWrites := hnw7.trans hnw6'
            have hkw7' : s7.kindWrites = s.kindWrites := hkw7.trans hkw6'
            split at hres
            · injection hres with hr hs
              subst hr; subst hs
              exact initBody_fail_leaf hn7' hnw7' (by omega)
            · split at hres
              · rename_i fst code s8 h8t
                injection hres with hr hs
                subst hr; subst hs
                obtain ⟨hk8, hn8, hkw8, hnw8⟩ := pres_transfer_eq o 0xFF h8t
                exact initBody_fail_leaf (hn8.trans hn7') (hnw8.trans hnw7') (by omega)
              · rename_i st4 s8 h8t
                obtain ⟨hk8, hn8, hkw8, hnw8⟩ := pres_transfer_eq o 0xFF h8t
                have hn8' : s8.numblocks = s.numblocks := hn8.trans hn7'
                have hnw8' : s8.nbWrites = s.nbWrites := hnw8.trans hnw7'
                have hkw8' : s8.kindWrites = s.kindWrites := hkw8.trans hkw7'
                split at hres
                · injection hres with hr hs
                  subst hr; subst hs
                  exact initBody_fail_leaf hn8' hnw8' (by omega)
                · rw [if_pos (show (setKind 2 s8).kind = 2 from rfl)] at hres
                  split at hres
                  · rename_i fst e s10 hA
                    injection hres with hr hs
                    subst hr; subst hs
                    obtain ⟨hkA, hnA, hkwA, hnwA⟩ :=
                      pres_acmd41Loop_eq o wf 0x40000000 f1 _ hA
                    have h10k : s10.kindWrites = s8.kindWrites + 1 := hkwA
                    exact initBody_fail_leaf (hnA.trans hn8') (hnwA.trans hnw8')
                      (by omega)
                  · rename_i r1f s10 hA
                    obtain ⟨hkA, hnA, hkwA, hnwA⟩ :=
                      pres_acmd41Loop_eq o wf 0x40000000 f1 _ hA
                    have hn10 : s10.numblocks = s.numblocks := hnA.trans hn8'
                    have hnw10 : s10.nbWrites = s.nbWrites := hnwA.trans hnw8'
                    have h10k : s10.kindWrites = s8.kindWrites + 1 := hkwA
                    split at hres
                    · injection hres with hr hs
                      subst hr; subst hs
                      exact initBody_fail_leaf hn10 hnw10 (by omega)
                    · split at hres
                      · rename_i e s11 hO
                        injection hres with hr hs
                        subst hr; subst hs
                        have hOacc := initOcrStep_accounting o wf s10
                        rw [hO] at hOacc
                        have hOn : s11.numblocks = s10.numblocks := hOacc.1
                        have hOw : s11.nbWrites = s10.nbWrites := hOacc.2.1
                        have hOk : s11.kindWrites ≤ s10.kindWrites + 1 := hOacc.2.2
                        exact initBody_fail_leaf (hOn.trans hn10) (hOw.trans hnw10)
                          (by omega)
                      · rename_i s11 hO
                        have hOacc := initOcrStep_accounting o wf s10
                        rw [hO] at hOacc
                        have hOn : s11.numblocks = s10.numblocks := hOacc.1
                        have hOw : s11.nbWrites = s10.nbWrites := hOacc.2.1
                        have hOk : s11.kindWrites ≤ s10.kindWrites + 1 := hOacc.2.2
                        have hn11 : s11.numblocks = s.numblocks := hOn.trans hn10
                        have hnw11 : s11.nbWrites = s.nbWrites := hOw.trans hnw10
                        split at hres
                        · rename_i e s12 h16
                          injection hres with hr hs
                          subst hr; subst hs
                          obtain ⟨hk12, hn12, hkw12, hnw12⟩ :=
                            pres_cmdE0_eq o wf 16 0x200 0xFF h16
                          exact initBody_fail_leaf (hn12.trans hn11)
                            (hnw12.trans hnw11) (by omega)
                        · rename_i s12 h16
                          obtain ⟨hk12, hn12, hkw12, hnw12⟩ :=
                            pres_cmdE0_eq o wf 16 0x200 0xFF h16
                          have hn12' : s12.numblocks = s.numblocks := hn12.trans hn11
                          have hnw12' : s12.nbWrites = s.nbWrites := hnw12.trans hnw11
                          have hkw12' : s12.kindWrites ≤ s.kindWrites + 2 := by omega
                          have hreg := initRegisterStep_accounting o wf ws s12
                          rw [hres] at hreg
                          have hrw : s'.nbWrites
                              = s12.nbWrites + (if r = none then 1 else 0) := hreg.1
                          have hrk : s'.kindWrites = s12.kindWrites := hreg.2.2
                          refine ⟨by rw [hrw, hnw12'], ?_, by omega⟩
                          rcases hreg.2.1 with hrn | hrn
                          · exact Or.inl hrn
                          · exact Or.inr
                              ((show s'.numblocks = s12.numblocks from hrn).trans hn12')

/-- The trace of a derived session state extends the original trace. -/
def Ext (s s' : S) : Prop := ∃ t, s'.trace = s.trace ++ t

theorem ext_refl (s : S) : Ext s s := ⟨[], (List.append_nil _).symm⟩

theorem ext_trans {a b c : S} (h1 : Ext a b) (h2 : Ext b c) : Ext a c := by
  obtain ⟨t, ht⟩ := h1
  obtain ⟨u, hu⟩ := h2
  exact ⟨t ++ u, by rw [hu, ht, List.append_assoc]⟩

theorem ext_app1 (s : S) (A : List Ev) {s' : S}
    (h : s'.trace = s.trace ++ A) : Ext s s' := ⟨A, h⟩

theorem ext_app2 (s : S) (A B : List Ev) {s' : S}
    (h : s'.trace = s.trace ++ A ++ B) : Ext s s' :=
  ⟨A ++ B, by rw [h, List.append_assoc]⟩

theorem ext_app3 (s : S) (A B C : List Ev) {s' : S}
    (h : s'.trace = s.trace ++ A ++ B ++ C) : Ext s s' :=
  ⟨A ++ B ++ C, by rw [h]; simp [List.append_assoc]⟩

theorem ext_csEnable (b : Bool) (s : S) : Ext s (csEnable b s) := ⟨[Ev.cs b], rfl⟩

theorem ext_waitNotBusy (o : Oracle) : ∀ (f : Nat) (s : S),
    Ext s (waitNotBusy o f s).2 := by
  intro f
  induction f with
  | zero => intro s; exact ext_refl s
  | succ n ih =>
    intro s
    simp only [waitNotBusy, transfer, busCall]
    split
    · exact ext_app1 s _ rfl
    · split
      · exact ext_app1 s _ rfl
      · exact ext_trans (ext_app1 s _ rfl) (ih _)

theorem ext_pollResponse (o : Oracle) : ∀ (f : Nat) (s : S),
    Ext s (pollResponse o f s).2 := by
  intro f
  induction f with
  | zero => intro s; exact ext_refl s
  | succ n ih =>
    intro s
    simp only [pollResponse, busCall]
    split
    · exact ext_app1 s _ rfl
    · exact ext_trans (ext_app1 s _ rfl) (ih _)

theorem ext_pollResponse_eq (o : Oracle) (f : Nat) {s s5 : S} {ro : Option Nat}
    (h : pollResponse o f s = (ro, s5)) : Ext s s5 := by
  have hp := ext_pollResponse o f s
  rw [h] at hp
  exact hp

/-- An event present in a trace stays present in every extension. -/
theorem mem_ext {x : Ev} {a b : S} (h : x ∈ a.trace) (he : Ext a b) :
    x ∈ b.trace := by
  obtain ⟨t, ht⟩ := he
  rw [ht]
  exact List.mem_append_left _ h

/-- If the response poll only ever sees bytes with the top bit set, it
returns no response for every polling bound. -/
theorem pollResponse_allbusy (o : Oracle)
    (H : ∀ i, ((o i).rx.getD 0 0 % 256) &&& 0x80 ≠ 0) :
    ∀ (f : Nat) (s : S), (pollResponse o f s).1 = none := by
  intro f
  induction f with
  | zero => intro s; rfl
  | succ n ih =>
    intro s
    simp only [pollResponse, busCall]
    rw [if_neg (H s.idx)]
    exact ih _

theorem pollResponse_allbusy_eq (o : Oracle)
    (H : ∀ i, ((o i).rx.getD 0 0 % 256) &&& 0x80 ≠ 0)
    (f : Nat) {s s5 : S} {ro : Option Nat}
    (h : pollResponse o f s = (ro, s5)) : ro = none := by
  have hp := pollResponse_allbusy o H f s
  rw [h] at hp
  exact hp

/-! ## Claim C1 -/

/-- C1: refuted on the code. The claim reads `IsValid` as accepting exactly
the images whose byte 15 equals (CRC7 of bytes 0–14) in bits 7:1 with the
always-1 bit set. The reference CRC7 of fifteen zero bytes is 0, so the
standard-valid image ends in byte 0x01 — yet `IsValid` rejects it — while
the code accepts the image ending in 0x80, whose always-1 bit is clear:
the code compares against `CRC7 | 0x80`, an always-even value. -/
theorem csd_isValid_contradicts_crc_layout :
    IsValid (List.replicate 15 0 ++ [0x01]) = false ∧
    crc7_spec (List.replicate 15 0) = 0 ∧
    byteAt (List.replicate 15 0 ++ [0x01]) 15 = 2 * 0 + 1 ∧
    IsValid (List.replicate 15 0 ++ [0x80]) = true ∧
    byteAt (List.replicate 15 0 ++ [0x80]) 15 &&& 1 = 0 := by decide

/-! ## Claim C5 -/

/-- C5: refuted on the code. The table-driven `CRC7` returns the reference
7-bit CRC multiplied by two (pre-shifted): on the go-idle body it yields
0x94 where the reference CRC7 is 0x4A, so `putCmd`'s trailing byte
`CRC7<<1|1` wraps to 0x29 instead of the protocol's 0x95. The 0x95 frame is
only ever produced because `cmd` overwrites the byte with its hardcoded
`crc` argument. -/
theorem crc7_returns_shifted_value :
    CRC7 [0x40, 0, 0, 0, 0] = 0x94 ∧
    crc7_spec [0x40, 0, 0, 0, 0] = 0x4A ∧
    CRC7 [0x40, 0, 0, 0, 0] = 2 * crc7_spec [0x40, 0, 0, 0, 0] ∧
    (putCmdFrame 0 0).getD 5 0 = 0x29 ∧
    ((0x4A <<< 1) ||| 1) = 0x95 ∧
    cmdFrame 0 0 0x95 = [0x40, 0, 0, 0, 0, 0x95] := by decide

/-! ## Claim C2 -/

/-- C2: the code contradicts the spec. If the card stays busy (the
transport never answers 0xFF) until the write deadline expires,
`waitNotBusy` returns `nil` — proved for every deadline — and `WriteBlock`
therefore reports success instead of the write-timeout error; two
end-to-end runs (deadlines of 4 and 400 busy polls) return no error. -/
theorem write_timeout_swallowed :
    (∀ (o : Oracle) (f : Nat) (s : S),
        (∀ i, s.idx ≤ i → (o i).err = none ∧ ((o i).rx.getD 0 0 % 256) ≠ 0xFF) →
        (waitNotBusy o f s).1 = none) ∧
    (WriteBlock oWriteBusy 1 4 0 (List.replicate 512 0xAB) sOneBlock).1 = none ∧
    (WriteBlock oWriteBusy 1 400 0 (List.replicate 512 0xAB) sOneBlock).1 = none :=
  ⟨waitNotBusy_expired_nil, by decide, by decide⟩

/-- Closed instance of the busy-expiry statement of
`write_timeout_swallowed`, discharging its hypothesis at `oAllZero`. -/
theorem write_timeout_swallowed_witness :
    (waitNotBusy oAllZero 3 initS).1 = none :=
  write_timeout_swallowed.1 oAllZero 3 initS
    (fun _ _ => ⟨rfl, by simp only [oAllZero]; decide⟩)

/-! ## Claim C3 -/

/-- C3 counterexample: a transport error (code 7) during the post-write
busy-wait is replaced by the write-timeout error rather than being
propagated unmodified. -/
theorem busywait_transport_error_replaced :
    (WriteBlock (oWriteBusyErr 7) 1 1 0 (List.replicate 512 0xAB) sOneBlock).1
        = some SDError.writeTimeout ∧
    (oWriteBusyErr 7 8).err = some 7 ∧
    (WriteBlock (oWriteBusyErr 7) 1 1 0 (List.replicate 512 0xAB) sOneBlock).1
        ≠ some (SDError.transport 7) := by decide

/-! ## Claim C4 -/

/-- C4 counterexample: a negative block index is not rejected — with one
readable block, index −1 passes the bounds check of both `ReadBlock` and
`WriteBlock` and the transport is driven (the bus-call cursor advances and
the run fails later, at the start-token wait and data-response stages). -/
theorem negative_block_reaches_transport :
    ((-1 : Int) < 0) ∧
    sOneBlock.numblocks = 1 ∧
    (ReadBlock oAllZero 1 1 (-1) 512 sOneBlock).1.1 = some SDError.waitStartBlock ∧
    (ReadBlock oAllZero 1 1 (-1) 512 sOneBlock).2.idx = 4 ∧
    (WriteBlock oAllZero 1 1 (-1) (List.replicate 512 0xAB) sOneBlock).1
        = some SDError.write ∧
    (WriteBlock oAllZero 1 1 (-1) (List.replicate 512 0xAB) sOneBlock).2.idx ≠ 0
    := by decide

/-- C4 amended: indices at or above the block count are rejected with the
out-of-bounds error and the session state — bus cursor and trace included —
is returned untouched, so the transport is never driven. -/
theorem oob_block_rejected_without_transport (o : Oracle) (wf ws bf : Nat)
    (block : Int) (s : S) (src : List Nat)
    (hlen : src.length = 512) (hge : block ≥ s.numblocks) :
    ReadBlock o wf ws block 512 s = ((some .oob, []), s) ∧
    WriteBlock o wf bf block src s = (some .oob, s) := by
  constructor
  · unfold ReadBlock
    rw [if_neg (by omega), if_pos hge]
  · unfold WriteBlock
    rw [if_neg (by omega), if_pos hge]

/-- Closed instance of `oob_block_rejected_without_transport` at block
index 5 of a one-block card. -/
theorem oob_block_rejected_without_transport_witness :
    ReadBlock oAllFF 1 1 5 512 sOneBlock = ((some .oob, []), sOneBlock) ∧
    WriteBlock oAllFF 1 1 5 (List.replicate 512 0) sOneBlock
      = (some .oob, sOneBlock) :=
  oob_block_rejected_without_transport oAllFF 1 1 1 5 sOneBlock
    (List.replicate 512 0) (by decide) (by decide)

/-! ## Claim C6 -/

/-- A V1 CSD image whose capacity formula overflows `uint32`:
C_SIZE = 0xFFF, C_SIZE_MULT = 7, READ_BL_LEN = 15, formula value 2^36. -/
def csdOverflow : List Nat :=
  [0x00, 0, 0, 0, 0, 0x0F, 0x03, 0xFF, 0xC0, 0x03, 0x80, 0, 0, 0, 0, 0]

/-- C6 counterexample: on `csdOverflow` the claim's exact formula gives
2^36 = 68719476736, but the decoded capacity is computed in `uint32` and
wraps to 0. -/
theorem csdv1_capacity_overflows :
    CSDStructure csdOverflow = 0 ∧
    csizeV1 csdOverflow = 4095 ∧
    csizemultV1 csdOverflow = 7 ∧
    byteAt csdOverflow 5 &&& 0x0F = 15 ∧
    DeviceCapacity csdOverflow = 0 ∧
    (csizeV1 csdOverflow + 1) * (1 <<< (2 + csizemultV1 csdOverflow))
        * (1 <<< (byteAt csdOverflow 5 &&& 0x0F)) = 68719476736 ∧
    (0 : Nat) ≠ 68719476736 := by decide

/-- Bitwise-or of two values below a power of two stays below it. -/
theorem or_lt_two_pow {x y n : Nat} (hx : x < 2 ^ n) (hy : y < 2 ^ n) :
    x ||| y < 2 ^ n :=
  Nat.bitwise_lt hx hy

/-- Register bytes are below 256. -/
theorem byteAt_lt (d : List Nat) (i : Nat) : byteAt d i < 256 :=
  Nat.mod_lt _ (by norm_num)

/-- The 3-bit C_SIZE_MULT field is below 8. -/
theorem csizemultV1_lt (d : List Nat) : csizemultV1 d < 2 ^ 3 := by
  unfold csizemultV1
  refine or_lt_two_pow ?_ ?_
  · have h3 : byteAt d 9 &&& 0b11 ≤ 3 := Nat.and_le_right
    calc (byteAt d 9 &&& 0b11) <<< 1 = (byteAt d 9 &&& 0b11) * 2 ^ 1 :=
          Nat.shiftLeft_eq _ _
      _ < 2 ^ 3 := by omega
  · have := byteAt_lt d 10
    calc byteAt d 10 >>> 7 = byteAt d 10 / 2 ^ 7 := Nat.shiftRight_eq_div_pow _ _
      _ < 2 ^ 3 := by omega

/-- C6 amended: for every CSD image with structure bits 0, the decoded
capacity equals the claim's exact formula reduced modulo 2^32 — the code
computes it in `uint32`, so the two agree exactly whenever the formula's
value is below 2^32 and differ by wrap-around otherwise. -/
theorem csdv1_capacity_formula_mod32 (d : List Nat) (h : CSDStructure d = 0) :
    DeviceCapacity d =
      ((csizeV1 d + 1) * (1 <<< (2 + csizemultV1 d)) * (1 <<< (byteAt d 5 &&& 0x0F)))
        % 4294967296 := by
  have hcm : csizemultV1 d < 2 ^ 3 := csizemultV1_lt d
  have hmult : (1 <<< (2 + csizemultV1 d)) % 65536 = 1 <<< (2 + csizemultV1 d) := by
    rw [Nat.one_shiftLeft]
    have hlt : 2 ^ (2 + csizemultV1 d) < 2 ^ 16 :=
      Nat.pow_lt_pow_right (by norm_num) (by omega)
    exact Nat.mod_eq_of_lt (lt_of_lt_of_le hlt (by norm_num))
  have hexp : byteAt d 5 &&& 0x0F ≤ 15 := Nat.and_le_right
  have hblk : (1 <<< (byteAt d 5 &&& 0x0F)) % 65536 = 1 <<< (byteAt d 5 &&& 0x0F) := by
    rw [Nat.one_shiftLeft]
    have hlt : 2 ^ (byteAt d 5 &&& 0x0F) < 2 ^ 16 :=
      Nat.pow_lt_pow_right (by norm_num) (by omega)
    exact Nat.mod_eq_of_lt (lt_of_lt_of_le hlt (by norm_num))
  unfold DeviceCapacity
  rw [if_pos h]
  unfold DeviceCapacityV1 multV1 ReadBlockLen
  rw [hmult, hblk, Nat.mod_mul_mod]

/-- Closed instance of `csdv1_capacity_formula_mod32` on a small V1 image
(C_SIZE = 4095, C_SIZE_MULT = 0, READ_BL_LEN = 9), where the formula value
8388608 is below 2^32 and is returned exactly. -/
theorem csdv1_capacity_formula_mod32_witness :
    DeviceCapacity [0, 0, 0, 0, 0, 0x09, 0x03, 0xFF, 0xC0, 0, 0, 0, 0, 0, 0, 0] =
      ((csizeV1 [0, 0, 0, 0, 0, 0x09, 0x03, 0xFF, 0xC0, 0, 0, 0, 0, 0, 0, 0] + 1)
        * (1 <<< (2 + csizemultV1 [0, 0, 0, 0, 0, 0x09, 0x03, 0xFF, 0xC0, 0, 0, 0, 0, 0, 0, 0]))
        * (1 <<< (byteAt [0, 0, 0, 0, 0, 0x09, 0x03, 0xFF, 0xC0, 0, 0, 0, 0, 0, 0, 0] 5 &&& 0x0F)))
        % 4294967296 :=
  csdv1_capacity_formula_mod32 _ (by decide)

/-! ## Claim C7 -/

/-- C7 counterexample: a transfer-speed (or TAAC) byte whose low three bits
are 7 indexes past the end of the seven-entry `log10table`, which panics in
Go — modelled as `none` — so the lookup is not total. -/
theorem log10_lookup_out_of_bounds :
    RateKilobits 7 = none ∧ AccessTime 7 = none ∧ log10table.length = 7 ∧
    (7 : Nat) &&& 0b111 = 7 := by decide

/-- C7 amended: for every byte whose low three bits are at most 6 — which
covers all values the SD standard assigns — the lookups are in bounds and
return 100·10^(v&7) kilobits/s and 10^(v&7) nanoseconds respectively. -/
theorem log10_lookup_in_bounds (t : Nat) (h : t &&& 0b111 ≤ 6) :
    RateKilobits t = some (100 * 10 ^ (t &&& 0b111)) ∧
    AccessTime t = some (10 ^ (t &&& 0b111)) := by
  unfold RateKilobits AccessTime
  set k := t &&& 0b111 with hk
  interval_cases k <;> simp [log10table]

/-- Closed instance of `log10_lookup_in_bounds` at the standard
transfer-speed byte 0x32. -/
theorem log10_lookup_in_bounds_witness :
    RateKilobits 0x32 = some (100 * 10 ^ (0x32 &&& 0b111)) ∧
    AccessTime 0x32 = some (10 ^ (0x32 &&& 0b111)) :=
  log10_lookup_in_bounds 0x32 (by decide)

/-! ## Claim C8 -/

/-- C8 amended: `numblocks` is assigned exactly once, at the end of a
successful initialization, and never by a failed initialization (its ghost
write counter advances exactly when `Init` succeeds); `ReadBlock` and
`WriteBlock` never assign `kind` or `numblocks`. `kind`, however, is not
set once at the end: it is assigned up to twice during initialization —
including during failed initializations — bounded by two writes per run. -/
theorem kind_numblocks_write_discipline :
    (∀ (o : Oracle) (wf ws f0 f1 : Nat) (s : S),
        (Init o wf ws f0 f1 s).2.nbWrites
          = s.nbWrites + (if (Init o wf ws f0 f1 s).1 = none then 1 else 0) ∧
        ((Init o wf ws f0 f1 s).1 = none ∨
          (Init o wf ws f0 f1 s).2.numblocks = s.numblocks) ∧
        (Init o wf ws f0 f1 s).2.kindWrites ≤ s.kindWrites + 2) ∧
    (∀ (o : Oracle) (wf ws : Nat) (block : Int) (dstLen : Nat) (s : S),
        Pres s (ReadBlock o wf ws block dstLen s).2) ∧
    (∀ (o : Oracle) (wf bf : Nat) (block : Int) (src : List Nat) (s : S),
        Pres s (WriteBlock o wf bf block src s).2) := by
  refine ⟨?_, pres_ReadBlock, pres_WriteBlock⟩
  intro o wf ws f0 f1 s
  unfold Init
  rcases hib : initBody o wf ws f0 f1 s with ⟨r, s1⟩
  have hacc := initBody_accounting o wf ws f0 f1 s r s1 hib
  dsimp only
  exact ⟨hacc.1, hacc.2.1, hacc.2.2⟩

/-- C8 counterexample: a failed initialization mutates `kind`. When CMD8
answers with the illegal-command flag, `Init` returns the card-not-supported
error but has already assigned `kind = TypeSD1`, so `kind` changed and its
ghost write counter advanced during a failed initialization. -/
theorem init_failure_mutates_kind :
    (Init oCmd8Illegal 1 1 1 1 initS).1 = some SDError.cardNotSupported ∧
    (Init oCmd8Illegal 1 1 1 1 initS).2.kind = 1 ∧
    initS.kind = 0 ∧
    (Init oCmd8Illegal 1 1 1 1 initS).2.kindWrites = initS.kindWrites + 1 := by
  decide

/-! ## Claim C9 -/

/-- C9: confirmed. When every byte the transport produces has its top bit
set (no response ever arrives within the 0xFFFF-exchange polling bound) and
the transport itself reports no error, `cmd` deasserts chip-select, sends
exactly one more filler byte, and returns the all-bits-set status 0xFF with
no error value. -/
theorem cmd_poll_timeout_allbits (o : Oracle)
    (H : ∀ i, (o i).err = none ∧ ((o i).rx.getD 0 0 % 256) &&& 0x80 ≠ 0)
    (wf c arg crc : Nat) (s : S) :
    (cmd o wf c arg crc s).1 = (0xFF, none) ∧
    ∃ t, (cmd o wf c arg crc s).2.trace
        = s.trace ++ t ++ [Ev.cs false, Ev.tx [0xFF]] := by
  by_cases hc : c = 12
  · subst hc
    unfold cmd
    simp only [busCall, csEnable, transfer, if_neg (show ¬(12 ≠ 12) from by omega),
      if_pos rfl, if_true]
    simp only [(H _).1]
    split
    · rename_i r s5 hp
      have hnone := pollResponse_allbusy_eq o (fun i => (H i).2) 0xFFFF hp
      exact absurd hnone (by simp)
    · rename_i s5 hp
      have hx5 : Ext s s5 := ext_trans (ext_app3 s _ _ _ rfl)
        (ext_pollResponse_eq o 0xFFFF hp)
      obtain ⟨t5, ht5⟩ := hx5
      refine ⟨rfl, ⟨t5, ?_⟩⟩
      simp [csEnable, ht5, List.append_assoc]
  · unfold cmd
    simp only [busCall, transfer, if_pos hc, if_neg hc]
    simp only [(H _).1]
    split
    · rename_i r s5 hp
      have hnone := pollResponse_allbusy_eq o (fun i => (H i).2) 0xFFFF hp
      exact absurd hnone (by simp)
    · rename_i s5 hp
      have hx2 : Ext s (waitNotBusy o wf (csEnable true s)).2 :=
        ext_trans (ext_csEnable true s) (ext_waitNotBusy o wf _)
      have hx5 : Ext s s5 := ext_trans hx2 (ext_trans (ext_app1 _ _ rfl)
        (ext_pollResponse_eq o 0xFFFF hp))
      obtain ⟨t5, ht5⟩ := hx5
      refine ⟨rfl, ⟨t5, ?_⟩⟩
      simp [csEnable, ht5, List.append_assoc]

/-- Closed instance of `cmd_poll_timeout_allbits` on the idle transport. -/
theorem cmd_poll_timeout_allbits_witness :
    (cmd oAllFF 1 17 0 0xFF initS).1 = (0xFF, none) ∧
    ∃ t, (cmd oAllFF 1 17 0 0xFF initS).2.trace
        = initS.trace ++ t ++ [Ev.cs false, Ev.tx [0xFF]] :=
  cmd_poll_timeout_allbits oAllFF
    (fun _ => ⟨rfl, by simp only [oAllFF]; decide⟩) 1 17 0 0xFF initS

/-! ## Claim C10 -/

/-- C10: confirmed. The sixth byte of the frame `cmd` transmits equals the
caller-supplied `crc` argument (reduced to a byte): `putCmd`'s computed CRC
byte is unconditionally overwritten by `buf[5] = crc` before transmission —
the overwritten frame is the one recorded on the bus trace of every run —
so a transmitted frame differs from `putCmd`'s whenever the supplied byte
differs from the freshly computed one. -/
theorem cmd_frame_crc_overwritten :
    (∀ c arg crc, (cmdFrame c arg crc).getD 5 0 = crc % 256) ∧
    (∀ (o : Oracle) (wf c arg crc : Nat) (s : S),
        Ev.tx (cmdFrame c arg crc) ∈ (cmd o wf c arg crc s).2.trace) ∧
    (∀ c arg crc, crc % 256 ≠ (putCmdFrame c arg).getD 5 0 →
        cmdFrame c arg crc ≠ putCmdFrame c arg) := by
  refine ⟨fun c arg crc => rfl, ?_, ?_⟩
  · intro o wf c arg crc s
    by_cases hc : c = 12
    · subst hc
      unfold cmd
      simp only [busCall, csEnable, transfer,
        if_neg (show ¬(12 ≠ 12) from by omega), if_pos rfl, if_true]
      split
      · simp
      · split
        · rename_i r s5 hp
          refine mem_ext ?_ (ext_pollResponse_eq o 0xFFFF hp)
          simp
        · rename_i s5 hp
          refine mem_ext (mem_ext ?_ (ext_pollResponse_eq o 0xFFFF hp))
            (ext_app2 _ _ _ rfl)
          simp
    · unfold cmd
      simp only [busCall, csEnable, transfer, if_pos hc, if_neg hc]
      split
      · simp
      · split
        · rename_i r s5 hp
          refine mem_ext ?_ (ext_pollResponse_eq o 0xFFFF hp)
          simp
        · rename_i s5 hp
          refine mem_ext (mem_ext ?_ (ext_pollResponse_eq o 0xFFFF hp))
            (ext_app2 _ _ _ rfl)
          simp
  · intro c arg crc hne heq
    apply hne
    rw [← heq]
    rfl

/-- Closed instance of `cmd_frame_crc_overwritten` at the CMD0 frame: the
transmitted trailing byte is the hardcoded 0x95, differing from `putCmd`'s
computed byte 0x29. -/
theorem cmd_frame_crc_overwritten_witness :
    (cmdFrame 0 0 0x95).getD 5 0 = 0x95 % 256 ∧
    Ev.tx (cmdFrame 0 0 0x95) ∈ (cmd oAllFF 1 0 0 0x95 initS).2.trace ∧
    cmdFrame 0 0 0x95 ≠ putCmdFrame 0 0 :=
  ⟨cmd_frame_crc_overwritten.1 0 0 0x95,
   cmd_frame_crc_overwritten.2.1 oAllFF 1 0 0 0x95 initS,
   cmd_frame_crc_overwritten.2.2 0 0 0x95 (by decide)⟩

/-! ## Claim C3, amended -/

/-- A transport that reports error code 6 on the first busy-wait poll. -/
def oBusyErrW : Oracle := fun _ => ⟨[0x00], some 6⟩

/-- C3 amended: every error `cmd` or `waitNotBusy` returns is a transport
error carrying a code the transport actually produced — the frame
transmission error is surfaced unmodified and these helpers have no other
error source. However, a transport error during the response-polling
exchanges is discarded (the run on `oPollErr` fails its poll exchange with
code 9 yet returns status 0 with no error), and a transport error during
the post-write busy-wait is replaced by the write-timeout error. -/
theorem transport_error_propagation :
    (∀ (o : Oracle) (wf c arg crc : Nat) (s : S) (err : SDError),
        (cmd o wf c arg crc s).1.2 = some err →
        ∃ e i, err = SDError.transport e ∧ (o i).err = some e) ∧
    (∀ (o : Oracle) (f : Nat) (s : S) (err : SDError),
        (waitNotBusy o f s).1 = some err →
        ∃ e i, err = SDError.transport e ∧ (o i).err = some e) ∧
    ((cmd oPollErr 1 17 0 0xFF initS).1 = (0, none) ∧
      (oPollErr 2).err = some 9) ∧
    ((WriteBlock (oWriteBusyErr 7) 1 1 0 (List.replicate 512 0xAB) sOneBlock).1
        = some SDError.writeTimeout ∧ (oWriteBusyErr 7 8).err = some 7) := by
  refine ⟨?_, ?_, by decide, by decide⟩
  · intro o wf c arg crc s err Hsome
    unfold cmd at Hsome
    simp only [busCall] at Hsome
    split at Hsome
    · rename_i e heq
      dsimp only at Hsome
      injection Hsome with h
      exact ⟨e, _, h.symm, heq⟩
    · split at Hsome
      · dsimp only at Hsome
        simp at Hsome
      · dsimp only at Hsome
        simp at Hsome
  · intro o f
    induction f with
    | zero =>
      intro s err h
      simp only [waitNotBusy] at h
      exact Option.noConfusion h
    | succ n ih =>
      intro s err h
      simp only [waitNotBusy, transfer, busCall] at h
      split at h
      · rename_i code heq
        dsimp only at h
        injection h with h'
        exact ⟨code, s.idx, h'.symm, heq⟩
      · split at h
        · dsimp only at h
          simp at h
        · exact ih _ err h

/-- Closed instances of the propagation statements of
`transport_error_propagation`, discharging their hypotheses on runs whose
frame transmission (code 5) and busy-wait poll (code 6) fail. -/
theorem transport_error_propagation_witness :
    (∃ e i, SDError.transport 5 = SDError.transport e ∧
      (oFrameErr i).err = some e) ∧
    (∃ e i, SDError.transport 6 = SDError.transport e ∧
      (oBusyErrW i).err = some e) :=
  ⟨transport_error_propagation.1 oFrameErr 1 17 0 0xFF initS
      (SDError.transport 5) (by decide),
   transport_error_propagation.2.1 oBusyErrW 1 initS
      (SDError.transport 6) (by decide)⟩

end SD
